import Mathlib

/-!
Verification of the page-to-pdf-generator repository (src/generate-pdf.ts)
against its natural-language specification.

The TypeScript program is shallowly embedded: each browser-engine call made
by `generatePDF` becomes an `Event` in a trace, the network outcome of the
availability probe becomes a `NetBehavior` value, and per-profile page data
(scroll height, which operations fail) becomes a `ProfileEnv`.  Filename
computation models Node's `path.basename(path, ext)` on POSIX paths.
Strings are modelled as `List Char` (`"s".data`) so that everything is
kernel-computable.
-/

/-- Viewport record, mirroring the `DeviceViewport` interface. -/
structure DeviceViewport where
  width : Nat
  height : Nat
  deviceScaleFactor : Nat
  isMobile : Bool
  hasTouch : Bool
deriving DecidableEq, Repr

/-- The `DEVICE_PRESETS` table (first configuration revision: desktop 1920x1080).
Lookup by name returns `none` for unknown names, as a JS record access does. -/
def DEVICE_PRESETS (name : List Char) : Option DeviceViewport :=
  if name = "desktop".data then some ⟨1920, 1080, 1, false, false⟩
  else if name = "tablet".data then some ⟨768, 1024, 2, true, true⟩
  else if name = "mobile".data then some ⟨375, 667, 2, true, true⟩
  else none

/-- The mobile user agent string set for tablet/mobile profiles. -/
def MOBILE_USER_AGENT : List Char :=
  ("Mozilla/5.0 (iPhone; CPU iPhone OS 13_2_3 like Mac OS X) AppleWebKit/605.1.15 (KHTML, like Gecko) Version/13.0.3 Mobile/15E148 Safari/604.1").data

/-- Outcome of the single HTTP(S) request issued by `checkSiteHealth`:
either a response arrives after `afterMs` milliseconds carrying an optional
status code, or the connection errors after `afterMs`, or nothing ever
arrives (the 10s timer fires). -/
inductive NetBehavior where
  | response (status : Option Nat) (afterMs : Nat)
  | connectionError (afterMs : Nat)
  | noResponse
deriving DecidableEq, Repr

/-- The request timeout set by `req.setTimeout(10000, ...)`. -/
def requestTimeoutMs : Nat := 10000

/-- `checkSiteHealth`: resolves `true` iff the URL parses, a response arrives
before the 10s timer fires, and `res.statusCode ?? 0` lies in `[200, 400)`.
Connection errors, timeouts, and URL-parse failures resolve `false`. -/
def checkSiteHealth (urlParses : Bool) (net : NetBehavior) : Bool :=
  if urlParses then
    match net with
    | NetBehavior.response st t =>
        if t < requestTimeoutMs then
          decide (200 ≤ st.getD 0 ∧ st.getD 0 < 400)
        else false
    | NetBehavior.connectionError _ => false
    | NetBehavior.noResponse => false
  else false

/-- Last path component: trailing slashes dropped, then the suffix after the
last remaining slash (POSIX `basename` without extension stripping). -/
def baseComponent (p : List Char) : List Char :=
  ((p.reverse.dropWhile (fun c => c = '/')).takeWhile (fun c => ¬ c = '/')).reverse

/-- Node's `path.basename(p, ext)` on POSIX paths: returns the last path
component with `ext` stripped when `ext` is a proper suffix of that
component; a component equal to `ext` is kept whole, and a path equal to
`ext` yields the empty string. -/
def basename (p ext : List Char) : List Char :=
  if p = ext then []
  else if baseComponent p ≠ ext ∧ ext ≠ [] ∧ ext.isSuffixOf (baseComponent p) = true then
    (baseComponent p).take ((baseComponent p).length - ext.length)
  else baseComponent p

/-- Lines 293-296: `${fileBaseName}${deviceTypes.length > 1 ? `-${deviceType}` : ''}.pdf`
with `fileBaseName = path.basename(outputFilename, '.pdf')`. -/
def deviceSpecificFilename (outputFilename deviceType : List Char) (deviceTypesLength : Nat) : List Char :=
  basename outputFilename (".pdf".data)
    ++ (if 1 < deviceTypesLength then '-' :: deviceType else [])
    ++ ".pdf".data

/-- Lines 390-397 of `main`: default empty name to `landing-page`, then
append `.pdf` unless already present. -/
def normalizeOutputFilename (outputFilename : List Char) : List Char :=
  let f := if outputFilename = [] then "landing-page".data else outputFilename
  if (".pdf".data).isSuffixOf f = true then f else f ++ ".pdf".data

/-- The emitted filename of a single-profile run, from the operator-supplied
base name through `main`'s suffixing and the loop's filename computation. -/
def emittedSingle (outputBaseName : List Char) : List Char :=
  deviceSpecificFilename (normalizeOutputFilename outputBaseName) ("desktop".data) 1

/-- A name ends in exactly one `.pdf`: it has the suffix `.pdf` but not the
doubled suffix `.pdf.pdf`. -/
def endsInExactlyOnePdf (s : List Char) : Bool :=
  (".pdf".data).isSuffixOf s && !((".pdf.pdf".data).isSuffixOf s)

/-- The three recognized device-type tokens. -/
def validDeviceTokens : List (List Char) :=
  ["desktop".data, "tablet".data, "mobile".data]

/-- Lines 370-383 of `main`: keep only recognized tokens; fall back to
`['desktop']` when none survive. -/
def parseDeviceTypesArgs (args : List (List Char)) : List (List Char) :=
  let ds := args.filter (fun a => decide (a ∈ validDeviceTokens))
  if ds = [] then ["desktop".data] else ds

/-- One browser-engine call performed by `generatePDF`, in program order. -/
inductive Event where
  | launchBrowser
  | newPage
  | installDialogHandler
  | setViewport (w h : Nat)
  | setUserAgent (ua : List Char)
  | goto (url : List Char)
  | popupRoutine
  | popupErrorLogged
  | initialWait (seconds : Nat)
  | scrollTo (y : Nat)
  | pageWait (seconds : Nat)
  | exportPdf (filename : List Char) (w h : Nat)
  | closePage
  | closeBrowser
deriving DecidableEq, Repr

/-- Per-profile environment: the page's `document.body.scrollHeight` and
which awaited operations throw. -/
structure ProfileEnv where
  scrollHeight : Nat
  navFails : Bool
  popupFails : Bool
  evalFails : Bool
  pdfFails : Bool
deriving DecidableEq, Repr

/-- Errors surfaced by `generatePDF` to `main`'s catch block. -/
inductive GenError where
  | siteUnavailable
  | unknownDeviceType
  | navigationError
  | evaluationError
  | pdfError
deriving DecidableEq, Repr

/-- `Math.ceil(a / b)` on naturals (junk value 0 when `b = 0`). -/
def ceilDiv (a b : Nat) : Nat := (a + b - 1) / b

/-- Events of the loop `for (let i = 1; i < numPages; i++)` starting at
index `i`, running `k` iterations: scroll to `i*V`, wait `d` seconds. -/
def scrollWaitEventsFrom (V d : Nat) : Nat → Nat → List Event
  | _, 0 => []
  | i, Nat.succ k =>
      Event.scrollTo (i * V) :: Event.pageWait d :: scrollWaitEventsFrom V d (i + 1) k

/-- Lines 241-253: viewport (and user-agent) setup.  With a custom viewport
the provided dimensions are set and no user agent is touched; otherwise the
preset is applied and tablet/mobile get the mobile user agent.  Returns the
events plus the resulting `page.viewport()` dimensions. -/
def captureSetup (custom : Bool) (w h : Nat) (dt : List Char) :
    Option (List Event × Nat × Nat) :=
  if custom then some ([Event.setViewport w h], w, h)
  else
    match DEVICE_PRESETS dt with
    | none => none
    | some vp =>
        some (Event.setViewport vp.width vp.height ::
                (if dt = "mobile".data ∨ dt = "tablet".data then
                  [Event.setUserAgent MOBILE_USER_AGENT] else []),
              vp.width, vp.height)

/-- Lines 257-284: the try/catch popup-dismissal block; a failure inside it
is caught and logged, never propagated. -/
def popupEvents (env : ProfileEnv) : List Event :=
  if env.popupFails then [Event.popupRoutine, Event.popupErrorLogged]
  else [Event.popupRoutine]

/-- Lines 286-291: optional initial settling delay. -/
def initialDelayEvents (initialDelay : Nat) : List Event :=
  if 0 < initialDelay then [Event.initialWait initialDelay] else []

/-- Lines 305-328: the `pageDelay > 0` pagination block.  `currentHeight`
is `page.viewport()?.height || height`; `numPages` is the ceiling division;
scroll-and-wait cycles run for pages 2..numPages and only when
`numPages > 1`, followed by a scroll back to the top. -/
def scrollEvents (pageDelay height scrollHeight vpHeight : Nat) : List Event :=
  if 0 < pageDelay then
    if 1 < ceilDiv scrollHeight (if vpHeight = 0 then height else vpHeight) then
      scrollWaitEventsFrom (if vpHeight = 0 then height else vpHeight) pageDelay 1
        (ceilDiv scrollHeight (if vpHeight = 0 then height else vpHeight) - 1)
      ++ [Event.scrollTo 0]
    else []
  else []

/-- Lines 233-339: one iteration of the per-profile loop of `generatePDF`.
Returns the trace of engine calls performed plus the error that aborted the
iteration, if any.  Failure points mirror the awaited calls that are not
inside the popup try/catch: `page.goto`, the `scrollHeight` evaluate
(reached only when `pageDelay > 0`), and `page.pdf`. -/
def captureProfile (url out : List Char) (initialDelay pageDelay width height : Nat)
    (deviceTypesLength : Nat) (custom : Bool) (dt : List Char) (env : ProfileEnv) :
    List Event × Option GenError :=
  match captureSetup custom width height dt with
  | none => ([Event.newPage, Event.installDialogHandler], some GenError.unknownDeviceType)
  | some (setupEvs, vw, vh) =>
    if env.navFails then
      (Event.newPage :: Event.installDialogHandler :: setupEvs ++ [Event.goto url],
       some GenError.navigationError)
    else if 0 < pageDelay ∧ env.evalFails = true then
      (Event.newPage :: Event.installDialogHandler :: setupEvs ++ Event.goto url ::
         popupEvents env ++ initialDelayEvents initialDelay,
       some GenError.evaluationError)
    else if env.pdfFails then
      (Event.newPage :: Event.installDialogHandler :: setupEvs ++ Event.goto url ::
         popupEvents env ++ initialDelayEvents initialDelay
         ++ scrollEvents pageDelay height env.scrollHeight vh,
       some GenError.pdfError)
    else
      (Event.newPage :: Event.installDialogHandler :: setupEvs ++ Event.goto url ::
         popupEvents env ++ initialDelayEvents initialDelay
         ++ scrollEvents pageDelay height env.scrollHeight vh
         ++ [Event.exportPdf (deviceSpecificFilename out dt deviceTypesLength)
               (if vw = 0 then width else vw) (if vh = 0 then height else vh),
             Event.closePage],
       none)

/-- The `for (const deviceType of deviceTypes)` loop, threading the profile
index for environments.  An error from one iteration aborts the remaining
list; only after all iterations does `browser.close()` run. -/
def runProfiles (url out : List Char) (initialDelay pageDelay width height : Nat)
    (deviceTypesLength : Nat) (custom : Bool) (envs : Nat → ProfileEnv) :
    Nat → List (List Char) → List Event × Option GenError
  | _, [] => ([Event.closeBrowser], none)
  | idx, dt :: rest =>
    let c := captureProfile url out initialDelay pageDelay width height
               deviceTypesLength custom dt (envs idx)
    if c.2.isSome then (c.1, c.2)
    else
      let r := runProfiles url out initialDelay pageDelay width height
                 deviceTypesLength custom envs (idx + 1) rest
      (c.1 ++ r.1, r.2)

/-- Lines 215-343: `generatePDF`.  The availability probe runs first; a
negative probe throws before `puppeteer.launch()`.  Otherwise the browser
is launched and the per-profile loop runs. -/
def generatePDF (urlParses : Bool) (net : NetBehavior) (url out : List Char)
    (initialDelay pageDelay width height : Nat) (deviceTypes : List (List Char))
    (custom : Bool) (envs : Nat → ProfileEnv) : List Event × Option GenError :=
  if checkSiteHealth urlParses net then
    let r := runProfiles url out initialDelay pageDelay width height
               deviceTypes.length custom envs 0 deviceTypes
    (Event.launchBrowser :: r.1, r.2)
  else ([], some GenError.siteUnavailable)

/-- Lines 399-404 of `main`: a `generatePDF` error is caught and the process
exits with code 1; otherwise it exits 0. -/
def mainExitCode (result : List Event × Option GenError) : Nat :=
  match result.2 with
  | some _ => 1
  | none => 0

/-- The filename carried by a PDF-export event, if any. -/
def pdfFileOf : Event → Option (List Char)
  | Event.exportPdf f _ _ => some f
  | _ => none

/-- The filenames of the PDF files actually written in a trace. -/
def pdfFilesWritten (evs : List Event) : List (List Char) :=
  evs.filterMap pdfFileOf

/-- Whether an event is a scroll or a page-wait. -/
def isScrollOrWaitEvent : Event → Bool
  | Event.scrollTo _ => true
  | Event.pageWait _ => true
  | _ => false

/-- The scroll and page-wait events of a trace, in order. -/
def scrollAndWaitEvents (evs : List Event) : List Event :=
  evs.filter isScrollOrWaitEvent

/-- Whether an event is a user-agent override. -/
def isUserAgentEvent : Event → Bool
  | Event.setUserAgent _ => true
  | _ => false

/-- Whether a trace contains any `setUserAgent` call. -/
def hasUserAgentEvent (evs : List Event) : Bool :=
  evs.any isUserAgentEvent

/-- Page-context discipline checker: given `n` currently open page contexts,
a trace is disciplined when `newPage` only occurs with none open, `closePage`
only with exactly one open, and no context remains open at the end. -/
def pageDiscipline : Nat → List Event → Bool
  | n, [] => n == 0
  | n, Event.newPage :: rest => n == 0 && pageDiscipline 1 rest
  | n, Event.closePage :: rest => n == 1 && pageDiscipline 0 rest
  | n, _ :: rest => pageDiscipline n rest

/-! ## Helper lemmas on lists and the filename computation -/

theorem dropWhile_eq_self_of_forall {p : Char → Bool} {l : List Char}
    (h : ∀ c ∈ l, p c = false) : l.dropWhile p = l := by
  cases l with
  | nil => rfl
  | cons a t => simp [List.dropWhile_cons, h a (List.mem_cons_self a t)]

theorem takeWhile_eq_self_of_forall {p : Char → Bool} {l : List Char}
    (h : ∀ c ∈ l, p c = true) : l.takeWhile p = l := by
  induction l with
  | nil => rfl
  | cons a t ih =>
      simp [List.takeWhile_cons, h a (List.mem_cons_self a t),
        ih (fun c hc => h c (List.mem_cons_of_mem a hc))]

theorem baseComponent_eq_self {p : List Char} (h : ∀ c ∈ p, c ≠ '/') :
    baseComponent p = p := by
  unfold baseComponent
  rw [dropWhile_eq_self_of_forall, takeWhile_eq_self_of_forall, List.reverse_reverse]
  · intro c hc
    simpa using h c (List.mem_reverse.mp hc)
  · intro c hc
    simpa using h c (List.mem_reverse.mp hc)

theorem mem_baseComponent {p : List Char} {c : Char} (h : c ∈ baseComponent p) :
    c ≠ '/' := by
  unfold baseComponent at h
  have h1 := List.mem_reverse.mp h
  have h2 := List.mem_takeWhile_imp h1
  simpa using h2

theorem mem_basename_ne_slash {p ext : List Char} {c : Char}
    (h : c ∈ basename p ext) : c ≠ '/' := by
  unfold basename at h
  split at h
  · simp at h
  · split at h
    · exact mem_baseComponent (List.mem_of_mem_take h)
    · exact mem_baseComponent h

theorem basename_append_ext {B : List Char} (hB : B ≠ [])
    (hs : ∀ c ∈ B, c ≠ '/') :
    basename (B ++ ".pdf".data) (".pdf".data) = B := by
  have hne : B ++ ".pdf".data ≠ ".pdf".data := by
    intro h
    have hlen := congrArg List.length h
    rw [List.length_append] at hlen
    exact hB (List.eq_nil_of_length_eq_zero (by omega))
  have hdotslash : ∀ x ∈ (".pdf".data), x ≠ '/' := by decide
  have hcomp : baseComponent (B ++ ".pdf".data) = B ++ ".pdf".data := by
    apply baseComponent_eq_self
    intro c hc
    rcases List.mem_append.mp hc with h1 | h2
    · exact hs c h1
    · exact hdotslash c h2
  have hsuf : (".pdf".data).isSuffixOf (B ++ ".pdf".data) = true := by
    simp [List.isSuffixOf_iff_suffix]
  unfold basename
  rw [if_neg hne, hcomp, if_pos ⟨hne, by decide, hsuf⟩]
  have hl : (B ++ ".pdf".data).length - (".pdf".data).length = B.length := by
    rw [List.length_append]; omega
  rw [hl]
  exact List.take_left B _

theorem normalizeOutputFilename_of_no_suffix {B : List Char} (hB : B ≠ [])
    (hsuffix : (".pdf".data).isSuffixOf B = false) :
    normalizeOutputFilename B = B ++ ".pdf".data := by
  unfold normalizeOutputFilename
  rw [if_neg hB]
  simp [hsuffix]

theorem normalizeOutputFilename_of_suffix {y : List Char} (hy : y ≠ [])
    (hs : (".pdf".data).isSuffixOf y = true) : normalizeOutputFilename y = y := by
  unfold normalizeOutputFilename
  rw [if_neg hy]
  simp [hs]

theorem emittedSingle_eq (B : List Char) :
    emittedSingle B = basename (normalizeOutputFilename B) (".pdf".data) ++ ".pdf".data := by
  simp [emittedSingle, deviceSpecificFilename]

/-! ## C1 -/

/-- C1: the availability probe returns reachable=true iff an HTTP(S)
response arrives within the 10-second timeout with a status code in
[200, 400); it returns false for any status outside that range, for a
connection error, and for a timeout (a probe whose URL fails to parse never
receives a response, hence the `urlParses = true` conjunct). -/
theorem checkSiteHealth_reachable_iff (urlParses : Bool) (net : NetBehavior) :
    checkSiteHealth urlParses net = true ↔
      urlParses = true ∧ ∃ st t, net = NetBehavior.response st t ∧
        t < requestTimeoutMs ∧ 200 ≤ st.getD 0 ∧ st.getD 0 < 400 := by
  cases urlParses with
  | false => simp [checkSiteHealth]
  | true =>
    cases net with
    | response st t =>
        by_cases ht : t < requestTimeoutMs
        · simp [checkSiteHealth, ht, decide_eq_true_iff, and_assoc]
        · simp [checkSiteHealth, ht]
    | connectionError t => simp [checkSiteHealth]
    | noResponse => simp [checkSiteHealth]

/-- Witness for C1: a 200 response after 5 ms is classified reachable. -/
theorem checkSiteHealth_reachable_iff_witness :
    checkSiteHealth true (NetBehavior.response (some 200) 5) = true :=
  (checkSiteHealth_reachable_iff true (NetBehavior.response (some 200) 5)).mpr
    ⟨rfl, some 200, 5, rfl, by decide, by decide, by decide⟩

/-! ## C4 -/

/-- C4 counterexample: the claim says every outputBaseName yields filenames
ending in exactly one ".pdf", but supplying "report.pdf.pdf" emits
"report.pdf.pdf" (only one ".pdf" layer is stripped before re-appending),
which ends in a doubled ".pdf" suffix. -/
theorem pdf_suffix_counterexample :
    emittedSingle ("report.pdf.pdf".data) = "report.pdf.pdf".data
    ∧ endsInExactlyOnePdf (emittedSingle ("report.pdf.pdf".data)) = false := by
  decide

/-- C4 amended: the ".pdf"-suffixing pipeline is idempotent as a function
(running an emitted name through the pipeline again returns it unchanged)
and every emitted name ends in ".pdf"; in particular supplying "report" and
supplying "report.pdf" both yield "report.pdf", never "report.pdf.pdf".
However a base name already carrying a doubled ".pdf" suffix is emitted
with the doubled suffix kept, so not every emitted name ends in exactly one
".pdf". -/
theorem pdf_suffix_idempotent_amended (B : List Char) :
    (".pdf".data).isSuffixOf (emittedSingle B) = true
    ∧ emittedSingle (emittedSingle B) = emittedSingle B
    ∧ emittedSingle ("report".data) = "report.pdf".data
    ∧ emittedSingle ("report.pdf".data) = "report.pdf".data := by
  refine ⟨?_, ?_, by decide, by decide⟩
  · rw [emittedSingle_eq]
    simp [List.isSuffixOf_iff_suffix]
  · have hy := emittedSingle_eq B
    by_cases hb : basename (normalizeOutputFilename B) (".pdf".data) = []
    · rw [hy, hb]
      simp only [List.nil_append]
      decide
    · have hslash : ∀ c ∈ basename (normalizeOutputFilename B) (".pdf".data), c ≠ '/' :=
        fun c hc => mem_basename_ne_slash hc
      have hnene : basename (normalizeOutputFilename B) (".pdf".data) ++ ".pdf".data ≠ [] := by
        intro hcontra
        have h2 := (List.append_eq_nil.mp hcontra).2
        exact absurd h2 (by decide)
      have hnorm : normalizeOutputFilename
          (basename (normalizeOutputFilename B) (".pdf".data) ++ ".pdf".data)
          = basename (normalizeOutputFilename B) (".pdf".data) ++ ".pdf".data :=
        normalizeOutputFilename_of_suffix hnene (by simp [List.isSuffixOf_iff_suffix])
      rw [hy, emittedSingle_eq, hnorm, basename_append_ext hb hslash]

/-! ## C6 -/

/-- C6: device-type tokens outside {desktop, tablet, mobile} are discarded
(everything surviving the filter is a recognized token, and every recognized
token supplied survives), and when no valid token remains the profile set is
exactly ["desktop"]. -/
theorem main_deviceTypes_filtering (args : List (List Char)) :
    (∀ t ∈ parseDeviceTypesArgs args, t ∈ validDeviceTokens)
    ∧ ((∀ t ∈ args, t ∉ validDeviceTokens) → parseDeviceTypesArgs args = ["desktop".data])
    ∧ (∀ t ∈ args, t ∈ validDeviceTokens → t ∈ parseDeviceTypesArgs args) := by
  by_cases hds : args.filter (fun a => decide (a ∈ validDeviceTokens)) = []
  · refine ⟨?_, fun _ => ?_, ?_⟩
    · intro t ht
      simp only [parseDeviceTypesArgs, hds, if_pos] at ht
      simp at ht
      rw [ht]
      decide
    · simp [parseDeviceTypesArgs, hds]
    · intro t ht hv
      exfalso
      have : t ∈ args.filter (fun a => decide (a ∈ validDeviceTokens)) :=
        List.mem_filter.mpr ⟨ht, by simpa using hv⟩
      rw [hds] at this
      simp at this
  · have hres : parseDeviceTypesArgs args = args.filter (fun a => decide (a ∈ validDeviceTokens)) := by
      simp [parseDeviceTypesArgs, hds]
    refine ⟨?_, ?_, ?_⟩
    · intro t ht
      rw [hres] at ht
      have := (List.mem_filter.mp ht).2
      simpa using this
    · intro hall
      exfalso
      apply hds
      apply List.filter_eq_nil_iff.mpr
      intro a ha
      simpa using hall a ha
    · intro t ht hv
      rw [hres]
      exact List.mem_filter.mpr ⟨ht, by simpa using hv⟩

/-- Witness for C6: "phone" is discarded leaving no valid token, so the set
defaults to exactly ["desktop"]; a valid token like "tablet" survives. -/
theorem main_deviceTypes_filtering_witness :
    parseDeviceTypesArgs [("phone".data)] = [("desktop".data)]
    ∧ ("tablet".data) ∈ parseDeviceTypesArgs [("phone".data), ("tablet".data)] :=
  ⟨(main_deviceTypes_filtering [("phone".data)]).2.1 (by decide),
   (main_deviceTypes_filtering [("phone".data), ("tablet".data)]).2.2
     ("tablet".data) (by decide) (by decide)⟩

/-! ## C8 -/

/-- C8: when the availability probe classifies the URL unreachable,
`generatePDF` performs no engine call at all — in particular the browser is
never launched and zero PDF files are written — the site-unavailable error
is raised, and `main` exits with code 1. -/
theorem generatePDF_unreachable_aborts (urlParses : Bool) (net : NetBehavior)
    (url out : List Char) (d0 d w h : Nat) (dts : List (List Char)) (custom : Bool)
    (envs : Nat → ProfileEnv)
    (hfail : checkSiteHealth urlParses net = false) :
    (generatePDF urlParses net url out d0 d w h dts custom envs).1 = []
    ∧ Event.launchBrowser ∉ (generatePDF urlParses net url out d0 d w h dts custom envs).1
    ∧ pdfFilesWritten (generatePDF urlParses net url out d0 d w h dts custom envs).1 = []
    ∧ (generatePDF urlParses net url out d0 d w h dts custom envs).2 = some GenError.siteUnavailable
    ∧ mainExitCode (generatePDF urlParses net url out d0 d w h dts custom envs) = 1 := by
  simp [generatePDF, hfail, pdfFilesWritten, mainExitCode]

/-- Witness for C8: a probe that never receives a response (timeout) yields
an empty trace, the site-unavailable error, and exit code 1. -/
theorem generatePDF_unreachable_aborts_witness :
    (generatePDF true NetBehavior.noResponse ("https://example.com".data)
        ("landing-page.pdf".data) 0 0 794 1123 [("desktop".data)] false
        (fun _ => ⟨1000, false, false, false, false⟩)).1 = []
    ∧ mainExitCode (generatePDF true NetBehavior.noResponse ("https://example.com".data)
        ("landing-page.pdf".data) 0 0 794 1123 [("desktop".data)] false
        (fun _ => ⟨1000, false, false, false, false⟩)) = 1 := by
  have h := generatePDF_unreachable_aborts true NetBehavior.noResponse
    ("https://example.com".data) ("landing-page.pdf".data) 0 0 794 1123
    [("desktop".data)] false (fun _ => ⟨1000, false, false, false, false⟩) (by decide)
  exact ⟨h.1, h.2.2.2.2⟩

/-! ## C10 -/

/-- C10: an outputBaseName containing directory separators has its directory
component stripped by the filename computation: every emitted filename is
slash-free (hence written under the working directory, never at the supplied
path), and e.g. "dir/report" and "dir/report.pdf" both emit "report.pdf". -/
theorem output_filename_directory_stripped (B : List Char) (dts : List (List Char))
    (hslash : '/' ∈ B)
    (hvalid : ∀ dt ∈ dts, dt ∈ validDeviceTokens) :
    (∀ f ∈ dts.map (fun dt => deviceSpecificFilename (normalizeOutputFilename B) dt dts.length),
        '/' ∉ f ∧ f ≠ B)
    ∧ emittedSingle ("dir/report".data) = "report.pdf".data
    ∧ emittedSingle ("dir/report.pdf".data) = "report.pdf".data := by
  refine ⟨?_, by decide, by decide⟩
  intro f hf
  rcases List.mem_map.mp hf with ⟨dt, hdt, rfl⟩
  have hpdfslash : '/' ∉ (".pdf".data) := by decide
  have hnoslash : '/' ∉ deviceSpecificFilename (normalizeOutputFilename B) dt dts.length := by
    intro hmem
    unfold deviceSpecificFilename at hmem
    rcases List.mem_append.mp hmem with h1 | h2
    · rcases List.mem_append.mp h1 with h1a | h1b
      · exact mem_basename_ne_slash h1a rfl
      · by_cases hlen : 1 < dts.length
        · rw [if_pos hlen] at h1b
          rcases List.mem_cons.mp h1b with hdash | hin
          · exact absurd hdash (by decide)
          · have hv := hvalid dt hdt
            rcases List.mem_cons.mp hv with rfl | hv2
            · exact absurd hin (by decide)
            · rcases List.mem_cons.mp hv2 with rfl | hv3
              · exact absurd hin (by decide)
              · rcases List.mem_cons.mp hv3 with rfl | hv4
                · exact absurd hin (by decide)
                · simp at hv4
        · rw [if_neg hlen] at h1b
          simp at h1b
    · exact hpdfslash h2
  exact ⟨hnoslash, fun heq => hnoslash (by rw [heq]; exact hslash)⟩

/-- Witness for C10: "dir/report" with a single desktop profile emits a
slash-free filename different from the supplied path. -/
theorem output_filename_directory_stripped_witness :
    ('/' ∉ deviceSpecificFilename (normalizeOutputFilename ("dir/report".data)) ("desktop".data) 1)
    ∧ deviceSpecificFilename (normalizeOutputFilename ("dir/report".data)) ("desktop".data) 1
        ≠ "dir/report".data :=
  (output_filename_directory_stripped ("dir/report".data) [("desktop".data)]
    (by decide) (by decide)).1
    (deviceSpecificFilename (normalizeOutputFilename ("dir/report".data)) ("desktop".data) 1)
    (by decide)

/-! ## Structure of a per-profile capture trace -/

theorem mem_scrollWaitEventsFrom {V d : Nat} :
    ∀ {k i : Nat} {e : Event}, e ∈ scrollWaitEventsFrom V d i k →
      (∃ y, e = Event.scrollTo y) ∨ e = Event.pageWait d := by
  intro k
  induction k with
  | zero => intro i e he; simp [scrollWaitEventsFrom] at he
  | succ k ih =>
      intro i e he
      rcases List.mem_cons.mp he with rfl | he2
      · exact Or.inl ⟨_, rfl⟩
      · rcases List.mem_cons.mp he2 with rfl | he3
        · exact Or.inr rfl
        · exact ih he3

theorem mem_scrollEvents {pd hh sh vh : Nat} {e : Event}
    (he : e ∈ scrollEvents pd hh sh vh) :
    (∃ y, e = Event.scrollTo y) ∨ (∃ s, e = Event.pageWait s) := by
  unfold scrollEvents at he
  by_cases h1 : 0 < pd
  · rw [if_pos h1] at he
    by_cases h2 : 1 < ceilDiv sh (if vh = 0 then hh else vh)
    · rw [if_pos h2] at he
      rcases List.mem_append.mp he with ha | hb
      · rcases mem_scrollWaitEventsFrom ha with ⟨y, rfl⟩ | rfl
        · exact Or.inl ⟨y, rfl⟩
        · exact Or.inr ⟨pd, rfl⟩
      · simp at hb
        exact Or.inl ⟨0, hb⟩
    · rw [if_neg h2] at he
      simp at he
  · rw [if_neg h1] at he
    simp at he

theorem mem_popupEvents {env : ProfileEnv} {e : Event}
    (he : e ∈ popupEvents env) :
    e = Event.popupRoutine ∨ e = Event.popupErrorLogged := by
  unfold popupEvents at he
  split at he
  · rcases List.mem_cons.mp he with rfl | h2
    · exact Or.inl rfl
    · simp at h2
      exact Or.inr h2
  · simp at he
    exact Or.inl he

theorem mem_initialDelayEvents {d0 : Nat} {e : Event}
    (he : e ∈ initialDelayEvents d0) : ∃ s, e = Event.initialWait s := by
  unfold initialDelayEvents at he
  split at he
  · simp at he
    exact ⟨d0, he⟩
  · simp at he

theorem captureSetup_mem {custom : Bool} {w h : Nat} {dt : List Char}
    {se : List Event} {vw vh : Nat}
    (hs : captureSetup custom w h dt = some (se, vw, vh)) :
    ∀ e ∈ se, (∃ a b, e = Event.setViewport a b) ∨ e = Event.setUserAgent MOBILE_USER_AGENT := by
  intro e he
  unfold captureSetup at hs
  split at hs
  · simp only [Option.some.injEq, Prod.mk.injEq] at hs
    obtain ⟨h1, -, -⟩ := hs
    subst h1
    simp at he
    exact Or.inl ⟨w, h, he⟩
  · split at hs
    · simp at hs
    · simp only [Option.some.injEq, Prod.mk.injEq] at hs
      obtain ⟨h1, -, -⟩ := hs
      subst h1
      rcases List.mem_cons.mp he with rfl | hin
      · exact Or.inl ⟨_, _, rfl⟩
      · split at hin
        · simp at hin
          exact Or.inr hin
        · simp at hin

/-- Event kinds that can occur after the navigation call in a per-profile
trace. -/
def postNavEvent (e : Event) : Prop :=
  e = Event.popupRoutine ∨ e = Event.popupErrorLogged
  ∨ (∃ s, e = Event.initialWait s) ∨ (∃ y, e = Event.scrollTo y)
  ∨ (∃ s, e = Event.pageWait s) ∨ (∃ f a b, e = Event.exportPdf f a b)
  ∨ e = Event.closePage

theorem postNav_of_mem_popup_init {env : ProfileEnv} {d0 : Nat} {e : Event}
    (he : e ∈ popupEvents env ++ initialDelayEvents d0) : postNavEvent e := by
  rcases List.mem_append.mp he with hp | hi
  · rcases mem_popupEvents hp with rfl | rfl
    · exact Or.inl rfl
    · exact Or.inr (Or.inl rfl)
  · obtain ⟨s, rfl⟩ := mem_initialDelayEvents hi
    exact Or.inr (Or.inr (Or.inl ⟨s, rfl⟩))

theorem postNav_of_mem_scroll {pd hh sh vh : Nat} {e : Event}
    (he : e ∈ scrollEvents pd hh sh vh) : postNavEvent e := by
  rcases mem_scrollEvents he with ⟨y, rfl⟩ | ⟨s, rfl⟩
  · exact Or.inr (Or.inr (Or.inr (Or.inl ⟨y, rfl⟩)))
  · exact Or.inr (Or.inr (Or.inr (Or.inr (Or.inl ⟨s, rfl⟩))))

/-- Every per-profile trace whose viewport setup succeeds starts with
`newPage`, the dialog handler, the setup events, and the navigation, in that
order; everything after the navigation is one of the post-navigation event
kinds. -/
theorem captureProfile_shape {url out : List Char} {d0 d w h len : Nat}
    {custom : Bool} {dt : List Char} {env : ProfileEnv} {se : List Event} {vw vh : Nat}
    (hs : captureSetup custom w h dt = some (se, vw, vh)) :
    ∃ tail, (captureProfile url out d0 d w h len custom dt env).1
      = Event.newPage :: Event.installDialogHandler :: se ++ Event.goto url :: tail
      ∧ ∀ e ∈ tail, postNavEvent e := by
  simp only [captureProfile, hs]
  by_cases h1 : env.navFails = true
  · rw [if_pos h1]
    exact ⟨[], rfl, by simp⟩
  · rw [if_neg h1]
    by_cases h2 : 0 < d ∧ env.evalFails = true
    · rw [if_pos h2]
      refine ⟨popupEvents env ++ initialDelayEvents d0, by simp, ?_⟩
      intro e he
      exact postNav_of_mem_popup_init he
    · rw [if_neg h2]
      by_cases h3 : env.pdfFails = true
      · rw [if_pos h3]
        refine ⟨popupEvents env ++ initialDelayEvents d0
          ++ scrollEvents d h env.scrollHeight vh, by simp, ?_⟩
        intro e he
        rcases List.mem_append.mp he with h12 | h3s
        · exact postNav_of_mem_popup_init h12
        · exact postNav_of_mem_scroll h3s
      · rw [if_neg h3]
        refine ⟨popupEvents env ++ initialDelayEvents d0
          ++ scrollEvents d h env.scrollHeight vh
          ++ [Event.exportPdf (deviceSpecificFilename out dt len)
                (if vw = 0 then w else vw) (if vh = 0 then h else vh),
              Event.closePage], by simp, ?_⟩
        intro e he
        rcases List.mem_append.mp he with h123 | hlast
        · rcases List.mem_append.mp h123 with h12 | h3s
          · exact postNav_of_mem_popup_init h12
          · exact postNav_of_mem_scroll h3s
        · rcases List.mem_cons.mp hlast with rfl | h2l
          · exact Or.inr (Or.inr (Or.inr (Or.inr (Or.inr (Or.inl ⟨_, _, _, rfl⟩)))))
          · simp at h2l
            subst h2l
            exact Or.inr (Or.inr (Or.inr (Or.inr (Or.inr (Or.inr rfl)))))

theorem postNav_not_ua {e : Event} (h : postNavEvent e) : isUserAgentEvent e = false := by
  rcases h with rfl | rfl | ⟨s, rfl⟩ | ⟨y, rfl⟩ | ⟨s, rfl⟩ | ⟨f, a, b, rfl⟩ | rfl <;> rfl

theorem not_postNav_closeBrowser : ¬ postNavEvent Event.closeBrowser := by
  simp [postNavEvent]

theorem not_postNav_launchBrowser : ¬ postNavEvent Event.launchBrowser := by
  simp [postNavEvent]

theorem not_postNav_newPage : ¬ postNavEvent Event.newPage := by
  simp [postNavEvent]

/-- Classification of every event occurring in a per-profile trace. -/
theorem captureProfile_mem_classify {url out : List Char} {d0 d w h len : Nat}
    {custom : Bool} {dt : List Char} {env : ProfileEnv} {e : Event}
    (hmem : e ∈ (captureProfile url out d0 d w h len custom dt env).1) :
    e = Event.newPage ∨ e = Event.installDialogHandler
    ∨ (∃ a b, e = Event.setViewport a b) ∨ e = Event.setUserAgent MOBILE_USER_AGENT
    ∨ e = Event.goto url ∨ postNavEvent e := by
  cases hc : captureSetup custom w h dt with
  | none =>
      simp [captureProfile, hc] at hmem
      rcases hmem with rfl | rfl
      · exact Or.inl rfl
      · exact Or.inr (Or.inl rfl)
  | some v =>
      obtain ⟨se, vw, vh⟩ := v
      obtain ⟨tail, htr, htail⟩ := captureProfile_shape hc
      rw [htr] at hmem
      rcases List.mem_cons.mp hmem with rfl | h2
      · exact Or.inl rfl
      · rcases List.mem_cons.mp h2 with rfl | h3
        · exact Or.inr (Or.inl rfl)
        · rcases List.mem_append.mp h3 with hse | h4
          · rcases captureSetup_mem hc e hse with ⟨a, b, rfl⟩ | rfl
            · exact Or.inr (Or.inr (Or.inl ⟨a, b, rfl⟩))
            · exact Or.inr (Or.inr (Or.inr (Or.inl rfl)))
          · rcases List.mem_cons.mp h4 with rfl | h5
            · exact Or.inr (Or.inr (Or.inr (Or.inr (Or.inl rfl))))
            · exact Or.inr (Or.inr (Or.inr (Or.inr (Or.inr (htail e h5)))))

theorem captureProfile_no_closeBrowser {url out : List Char} {d0 d w h len : Nat}
    {custom : Bool} {dt : List Char} {env : ProfileEnv} :
    Event.closeBrowser ∉ (captureProfile url out d0 d w h len custom dt env).1 := by
  intro hmem
  rcases captureProfile_mem_classify hmem with
    h | h | ⟨a, b, h⟩ | h | h | h
  · exact Event.noConfusion h
  · exact Event.noConfusion h
  · exact Event.noConfusion h
  · exact Event.noConfusion h
  · exact Event.noConfusion h
  · exact not_postNav_closeBrowser h

theorem captureProfile_no_launchBrowser {url out : List Char} {d0 d w h len : Nat}
    {custom : Bool} {dt : List Char} {env : ProfileEnv} :
    Event.launchBrowser ∉ (captureProfile url out d0 d w h len custom dt env).1 := by
  intro hmem
  rcases captureProfile_mem_classify hmem with
    h | h | ⟨a, b, h⟩ | h | h | h
  · exact Event.noConfusion h
  · exact Event.noConfusion h
  · exact Event.noConfusion h
  · exact Event.noConfusion h
  · exact Event.noConfusion h
  · exact not_postNav_launchBrowser h

/-- Each per-profile trace opens exactly one page context, whether it
completes or aborts. -/
theorem captureProfile_count_newPage {url out : List Char} {d0 d w h len : Nat}
    {custom : Bool} {dt : List Char} {env : ProfileEnv} :
    (captureProfile url out d0 d w h len custom dt env).1.count Event.newPage = 1 := by
  cases hc : captureSetup custom w h dt with
  | none => simp [captureProfile, hc]
  | some v =>
      obtain ⟨se, vw, vh⟩ := v
      obtain ⟨tail, htr, htail⟩ := captureProfile_shape hc
      rw [htr]
      have hrest : Event.newPage ∉
          Event.installDialogHandler :: se ++ Event.goto url :: tail := by
        intro hmem
        rcases List.mem_cons.mp hmem with h0 | h1
        · exact Event.noConfusion h0
        · rcases List.mem_append.mp h1 with hse | h2
          · rcases captureSetup_mem hc _ hse with ⟨a, b, hx⟩ | hx
            · exact Event.noConfusion hx
            · exact Event.noConfusion hx
          · rcases List.mem_cons.mp h2 with h0 | h3
            · exact Event.noConfusion h0
            · exact not_postNav_newPage (htail _ h3)
      have hse0 : List.count Event.newPage se = 0 :=
        List.count_eq_zero.mpr (fun hm =>
          hrest (List.mem_cons_of_mem _ (List.mem_append.mpr (Or.inl hm))))
      have htl0 : List.count Event.newPage tail = 0 :=
        List.count_eq_zero.mpr (fun hm =>
          hrest (List.mem_cons_of_mem _
            (List.mem_append.mpr (Or.inr (List.mem_cons_of_mem _ hm)))))
      simp [List.count_cons, hse0, htl0]

/-- On the success path (viewport resolved, no navigation, evaluation or
export failure) the per-profile trace is this explicit event list. -/
theorem captureProfile_success_eq {url out : List Char} {d0 d w h len : Nat}
    {custom : Bool} {dt : List Char} {env : ProfileEnv} {se : List Event} {vw vh : Nat}
    (hc : captureSetup custom w h dt = some (se, vw, vh))
    (h1 : env.navFails = false) (h2 : ¬(0 < d ∧ env.evalFails = true))
    (h3 : env.pdfFails = false) :
    captureProfile url out d0 d w h len custom dt env
      = (Event.newPage :: Event.installDialogHandler :: se ++ Event.goto url ::
           popupEvents env ++ initialDelayEvents d0
           ++ scrollEvents d h env.scrollHeight vh
           ++ [Event.exportPdf (deviceSpecificFilename out dt len)
                 (if vw = 0 then w else vw) (if vh = 0 then h else vh),
               Event.closePage], none) := by
  simp only [captureProfile, hc]
  rw [if_neg (by simp [h1]), if_neg h2, if_neg (by simp [h3])]

/-- A successful per-profile capture implies the viewport setup succeeded and
none of the fallible operations failed. -/
theorem captureProfile_success_conditions {url out : List Char} {d0 d w h len : Nat}
    {custom : Bool} {dt : List Char} {env : ProfileEnv}
    (hsucc : (captureProfile url out d0 d w h len custom dt env).2 = none) :
    ∃ se vw vh, captureSetup custom w h dt = some (se, vw, vh)
      ∧ env.navFails = false ∧ ¬(0 < d ∧ env.evalFails = true)
      ∧ env.pdfFails = false := by
  cases hc : captureSetup custom w h dt with
  | none => simp [captureProfile, hc] at hsucc
  | some v =>
      obtain ⟨se, vw, vh⟩ := v
      simp only [captureProfile, hc] at hsucc
      by_cases h1 : env.navFails = true
      · rw [if_pos h1] at hsucc
        simp at hsucc
      · by_cases h2 : 0 < d ∧ env.evalFails = true
        · rw [if_neg h1, if_pos h2] at hsucc
          simp at hsucc
        · by_cases h3 : env.pdfFails = true
          · rw [if_neg h1, if_neg h2, if_pos h3] at hsucc
            simp at hsucc
          · exact ⟨se, vw, vh, rfl, by simpa using h1, h2, by simpa using h3⟩

theorem filterMap_pdfFileOf_se {custom : Bool} {w h : Nat} {dt : List Char}
    {se : List Event} {vw vh : Nat}
    (hc : captureSetup custom w h dt = some (se, vw, vh)) :
    se.filterMap pdfFileOf = [] := by
  rw [List.filterMap_eq_nil_iff]
  intro e he
  rcases captureSetup_mem hc e he with ⟨a, b, rfl⟩ | rfl <;> rfl

theorem filterMap_pdfFileOf_popup {env : ProfileEnv} :
    (popupEvents env).filterMap pdfFileOf = [] := by
  rw [List.filterMap_eq_nil_iff]
  intro e he
  rcases mem_popupEvents he with rfl | rfl <;> rfl

theorem filterMap_pdfFileOf_init {d0 : Nat} :
    (initialDelayEvents d0).filterMap pdfFileOf = [] := by
  rw [List.filterMap_eq_nil_iff]
  intro e he
  obtain ⟨s, rfl⟩ := mem_initialDelayEvents he
  rfl

theorem filterMap_pdfFileOf_scrolls {pd hh sh vh : Nat} :
    (scrollEvents pd hh sh vh).filterMap pdfFileOf = [] := by
  rw [List.filterMap_eq_nil_iff]
  intro e he
  rcases mem_scrollEvents he with ⟨y, rfl⟩ | ⟨s, rfl⟩ <;> rfl

/-- A successful per-profile capture writes exactly one PDF file, named by
the filename computation. -/
theorem captureProfile_success_files {url out : List Char} {d0 d w h len : Nat}
    {custom : Bool} {dt : List Char} {env : ProfileEnv}
    (hsucc : (captureProfile url out d0 d w h len custom dt env).2 = none) :
    pdfFilesWritten (captureProfile url out d0 d w h len custom dt env).1
      = [deviceSpecificFilename out dt len] := by
  obtain ⟨se, vw, vh, hc, h1, h2, h3⟩ := captureProfile_success_conditions hsucc
  rw [captureProfile_success_eq hc h1 h2 h3]
  simp [pdfFilesWritten, List.filterMap_append, List.filterMap_cons,
    filterMap_pdfFileOf_se hc, filterMap_pdfFileOf_popup, filterMap_pdfFileOf_init,
    filterMap_pdfFileOf_scrolls, pdfFileOf]

/-- Events that touch no page context pass through the page discipline
checker unchanged. -/
theorem pageDiscipline_skip {l : List Event}
    (h : ∀ e ∈ l, e ≠ Event.newPage ∧ e ≠ Event.closePage) :
    ∀ n tail, pageDiscipline n (l ++ tail) = pageDiscipline n tail := by
  induction l with
  | nil => intro n tail; rfl
  | cons a t ih =>
      intro n tail
      have ht : ∀ e ∈ t, e ≠ Event.newPage ∧ e ≠ Event.closePage :=
        fun e he => h e (List.mem_cons_of_mem a he)
      cases a with
      | newPage => exact absurd rfl (h _ (List.mem_cons_self _ _)).1
      | closePage => exact absurd rfl (h _ (List.mem_cons_self _ _)).2
      | launchBrowser => simpa [pageDiscipline] using ih ht n tail
      | installDialogHandler => simpa [pageDiscipline] using ih ht n tail
      | setViewport w h => simpa [pageDiscipline] using ih ht n tail
      | setUserAgent ua => simpa [pageDiscipline] using ih ht n tail
      | goto u => simpa [pageDiscipline] using ih ht n tail
      | popupRoutine => simpa [pageDiscipline] using ih ht n tail
      | popupErrorLogged => simpa [pageDiscipline] using ih ht n tail
      | initialWait s => simpa [pageDiscipline] using ih ht n tail
      | scrollTo y => simpa [pageDiscipline] using ih ht n tail
      | pageWait s => simpa [pageDiscipline] using ih ht n tail
      | exportPdf f w h => simpa [pageDiscipline] using ih ht n tail
      | closeBrowser => simpa [pageDiscipline] using ih ht n tail

theorem no_page_events_se {custom : Bool} {w h : Nat} {dt : List Char}
    {se : List Event} {vw vh : Nat}
    (hc : captureSetup custom w h dt = some (se, vw, vh)) :
    ∀ e ∈ se, e ≠ Event.newPage ∧ e ≠ Event.closePage := by
  intro e he
  rcases captureSetup_mem hc e he with ⟨a, b, rfl⟩ | rfl <;>
    exact ⟨fun hx => Event.noConfusion hx, fun hx => Event.noConfusion hx⟩

theorem no_page_events_popup {env : ProfileEnv} :
    ∀ e ∈ popupEvents env, e ≠ Event.newPage ∧ e ≠ Event.closePage := by
  intro e he
  rcases mem_popupEvents he with rfl | rfl <;>
    exact ⟨fun hx => Event.noConfusion hx, fun hx => Event.noConfusion hx⟩

theorem no_page_events_init {d0 : Nat} :
    ∀ e ∈ initialDelayEvents d0, e ≠ Event.newPage ∧ e ≠ Event.closePage := by
  intro e he
  obtain ⟨s, rfl⟩ := mem_initialDelayEvents he
  exact ⟨fun hx => Event.noConfusion hx, fun hx => Event.noConfusion hx⟩

theorem no_page_events_scrolls {pd hh sh vh : Nat} :
    ∀ e ∈ scrollEvents pd hh sh vh, e ≠ Event.newPage ∧ e ≠ Event.closePage := by
  intro e he
  rcases mem_scrollEvents he with ⟨y, rfl⟩ | ⟨s, rfl⟩ <;>
    exact ⟨fun hx => Event.noConfusion hx, fun hx => Event.noConfusion hx⟩

/-- A successful per-profile capture is page-disciplined and leaves no page
context open for whatever follows it. -/
theorem captureProfile_success_discipline {url out : List Char} {d0 d w h len : Nat}
    {custom : Bool} {dt : List Char} {env : ProfileEnv}
    (hsucc : (captureProfile url out d0 d w h len custom dt env).2 = none) :
    ∀ rest, pageDiscipline 0 ((captureProfile url out d0 d w h len custom dt env).1 ++ rest)
      = pageDiscipline 0 rest := by
  obtain ⟨se, vw, vh, hc, h1, h2, h3⟩ := captureProfile_success_conditions hsucc
  intro rest
  rw [captureProfile_success_eq hc h1 h2 h3]
  have step_np : ∀ l, pageDiscipline 0 (Event.newPage :: l) = pageDiscipline 1 l := by
    intro l; simp [pageDiscipline]
  have step_id : ∀ n l, pageDiscipline n (Event.installDialogHandler :: l) = pageDiscipline n l := by
    intro n l; simp [pageDiscipline]
  have step_goto : ∀ n l, pageDiscipline n (Event.goto url :: l) = pageDiscipline n l := by
    intro n l; simp [pageDiscipline]
  have step_export : ∀ n l f a b, pageDiscipline n (Event.exportPdf f a b :: l) = pageDiscipline n l := by
    intro n l f a b; simp [pageDiscipline]
  have step_close : ∀ l, pageDiscipline 1 (Event.closePage :: l) = pageDiscipline 0 l := by
    intro l; simp [pageDiscipline]
  simp only [List.cons_append, List.append_assoc, List.nil_append]
  rw [step_np, step_id, pageDiscipline_skip (no_page_events_se hc), step_goto,
    pageDiscipline_skip no_page_events_popup, pageDiscipline_skip no_page_events_init,
    pageDiscipline_skip no_page_events_scrolls, step_export, step_close]

/-- A per-profile trace contains a user-agent override exactly when its
viewport-setup phase produced one. -/
theorem captureProfile_ua_eq {url out : List Char} {d0 d w h len : Nat}
    {custom : Bool} {dt : List Char} {env : ProfileEnv} {se : List Event} {vw vh : Nat}
    (hc : captureSetup custom w h dt = some (se, vw, vh)) :
    hasUserAgentEvent (captureProfile url out d0 d w h len custom dt env).1
      = hasUserAgentEvent se := by
  obtain ⟨tail, htr, htail⟩ := captureProfile_shape hc
  rw [htr]
  unfold hasUserAgentEvent
  have htl : tail.any isUserAgentEvent = false := by
    rw [List.any_eq_false]
    intro e he
    simp [postNav_not_ua (htail e he)]
  simp [List.any_cons, List.any_append, htl, isUserAgentEvent]

/-! ## C5 -/

/-- C5 counterexample: with a custom viewport requested (reachable from the
command line by supplying width and height together with a device list, e.g.
`url out 2 1 800 600 tablet`), a tablet profile is captured without any
user-agent override, refuting "tablet always has the user agent overridden". -/
theorem mobile_user_agent_counterexample :
    hasUserAgentEvent ((captureProfile ("https://example.com".data)
      ("landing-page.pdf".data) 0 0 800 600 1 true ("tablet".data)
      ⟨1000, false, false, false, false⟩).1) = false := by
  decide

/-- C5 amended: when no custom viewport is requested, tablet and mobile
profiles always have the user agent overridden with the mobile-identifying
string before navigation; a desktop profile never has it overridden, custom
viewport or not.  (With a custom viewport the override is skipped for every
profile type.) -/
theorem mobile_user_agent_amended (url out : List Char) (d0 d w h len : Nat)
    (custom : Bool) (dt : List Char) (env : ProfileEnv) :
    (custom = false → (dt = "tablet".data ∨ dt = "mobile".data) →
      ∃ vw vh rest, (captureProfile url out d0 d w h len custom dt env).1
        = Event.newPage :: Event.installDialogHandler :: Event.setViewport vw vh ::
            Event.setUserAgent MOBILE_USER_AGENT :: Event.goto url :: rest)
    ∧ (dt = "desktop".data →
        hasUserAgentEvent (captureProfile url out d0 d w h len custom dt env).1 = false) := by
  constructor
  · rintro rfl (rfl | rfl)
    · have hc : captureSetup false w h ("tablet".data)
          = some ([Event.setViewport 768 1024, Event.setUserAgent MOBILE_USER_AGENT],
                  768, 1024) := rfl
      obtain ⟨tail, htr, -⟩ := captureProfile_shape hc
      exact ⟨768, 1024, tail, by simpa using htr⟩
    · have hc : captureSetup false w h ("mobile".data)
          = some ([Event.setViewport 375 667, Event.setUserAgent MOBILE_USER_AGENT],
                  375, 667) := rfl
      obtain ⟨tail, htr, -⟩ := captureProfile_shape hc
      exact ⟨375, 667, tail, by simpa using htr⟩
  · rintro rfl
    cases custom with
    | true =>
        have hc : captureSetup true w h ("desktop".data)
            = some ([Event.setViewport w h], w, h) := rfl
        rw [captureProfile_ua_eq hc]
        rfl
    | false =>
        have hc : captureSetup false w h ("desktop".data)
            = some ([Event.setViewport 1920 1080], 1920, 1080) := rfl
        rw [captureProfile_ua_eq hc]
        rfl

/-- Witness for C5 (amended): a tablet capture without custom viewport has
the mobile user agent set between viewport setup and navigation. -/
theorem mobile_user_agent_amended_witness :
    ∃ vw vh rest, (captureProfile ("https://example.com".data)
      ("landing-page.pdf".data) 0 0 794 1123 1 false ("tablet".data)
      ⟨1000, false, false, false, false⟩).1
      = Event.newPage :: Event.installDialogHandler :: Event.setViewport vw vh ::
          Event.setUserAgent MOBILE_USER_AGENT ::
          Event.goto ("https://example.com".data) :: rest :=
  (mobile_user_agent_amended ("https://example.com".data) ("landing-page.pdf".data)
    0 0 794 1123 1 false ("tablet".data) ⟨1000, false, false, false, false⟩).1
    rfl (Or.inl rfl)

theorem filter_sw_se {custom : Bool} {w h : Nat} {dt : List Char}
    {se : List Event} {vw vh : Nat}
    (hc : captureSetup custom w h dt = some (se, vw, vh)) :
    se.filter isScrollOrWaitEvent = [] := by
  rw [List.filter_eq_nil_iff]
  intro e he
  rcases captureSetup_mem hc e he with ⟨a, b, rfl⟩ | rfl <;> simp [isScrollOrWaitEvent]

theorem filter_sw_popup {env : ProfileEnv} :
    (popupEvents env).filter isScrollOrWaitEvent = [] := by
  rw [List.filter_eq_nil_iff]
  intro e he
  rcases mem_popupEvents he with rfl | rfl <;> simp [isScrollOrWaitEvent]

theorem filter_sw_init {d0 : Nat} :
    (initialDelayEvents d0).filter isScrollOrWaitEvent = [] := by
  rw [List.filter_eq_nil_iff]
  intro e he
  obtain ⟨s, rfl⟩ := mem_initialDelayEvents he
  simp [isScrollOrWaitEvent]

/-! ## C2 -/

/-- C2 counterexample: with pageDelaySeconds = 1 and content height 500
below the desktop viewport height 1080 (so ceil(H/V) = 1), the code performs
no scrolling at all — in particular no scroll back to the top — whereas the
claim asserts ceil(H/V) - 1 = 0 cycles *followed by a scroll back to the
top*. -/
theorem generatePDF_scroll_claim_counterexample :
    scrollAndWaitEvents ((captureProfile ("https://example.com".data)
      ("landing-page.pdf".data) 0 1 794 1123 1 false ("desktop".data)
      ⟨500, false, false, false, false⟩).1) = []
    ∧ scrollAndWaitEvents ((captureProfile ("https://example.com".data)
      ("landing-page.pdf".data) 0 1 794 1123 1 false ("desktop".data)
      ⟨500, false, false, false, false⟩).1)
      ≠ scrollWaitEventsFrom 1080 1 1 (ceilDiv 500 1080 - 1) ++ [Event.scrollTo 0] := by
  decide

/-- C2 amended: on a successful profile capture exactly one PDF export is
issued.  With pageDelaySeconds = 0 no scrolling is performed.  With
pageDelaySeconds > 0, viewport height V (the resolved viewport height, or
the height parameter when it is 0) and content height H: when
ceil(H/V) > 1, exactly ceil(H/V) - 1 scroll-and-wait cycles run (scrolling
to i*V for i = 1..ceil(H/V)-1, waiting after each), followed by a scroll
back to the top, all before the export; when ceil(H/V) ≤ 1 no scrolling at
all is performed (and no scroll back to the top). -/
theorem generatePDF_scroll_pagination_amended
    (url out : List Char) (d0 d w h len : Nat) (custom : Bool) (dt : List Char)
    (env : ProfileEnv) (se : List Event) (vw vh : Nat)
    (hc : captureSetup custom w h dt = some (se, vw, vh))
    (h1 : env.navFails = false) (h2 : env.evalFails = false) (h3 : env.pdfFails = false) :
    (pdfFilesWritten (captureProfile url out d0 d w h len custom dt env).1).length = 1
    ∧ (d = 0 → scrollAndWaitEvents (captureProfile url out d0 d w h len custom dt env).1 = [])
    ∧ (0 < d → 1 < ceilDiv env.scrollHeight (if vh = 0 then h else vh) →
        ∃ pre, (captureProfile url out d0 d w h len custom dt env).1
          = pre ++ scrollWaitEventsFrom (if vh = 0 then h else vh) d 1
                (ceilDiv env.scrollHeight (if vh = 0 then h else vh) - 1)
            ++ [Event.scrollTo 0,
                Event.exportPdf (deviceSpecificFilename out dt len)
                  (if vw = 0 then w else vw) (if vh = 0 then h else vh),
                Event.closePage]
          ∧ scrollAndWaitEvents pre = [])
    ∧ (0 < d → ceilDiv env.scrollHeight (if vh = 0 then h else vh) ≤ 1 →
        scrollAndWaitEvents (captureProfile url out d0 d w h len custom dt env).1 = []) := by
  have h2' : ¬(0 < d ∧ env.evalFails = true) := by simp [h2]
  have hsucc : (captureProfile url out d0 d w h len custom dt env).2 = none := by
    rw [captureProfile_success_eq hc h1 h2' h3]
  have hswT : ∀ sc : List Event,
      scrollAndWaitEvents (Event.newPage :: Event.installDialogHandler :: se ++
        Event.goto url :: popupEvents env ++ initialDelayEvents d0 ++ sc
        ++ [Event.exportPdf (deviceSpecificFilename out dt len)
              (if vw = 0 then w else vw) (if vh = 0 then h else vh),
            Event.closePage])
      = scrollAndWaitEvents sc := by
    intro sc
    simp [scrollAndWaitEvents, List.filter_append, List.filter_cons,
      filter_sw_se hc, filter_sw_popup, filter_sw_init, isScrollOrWaitEvent]
  refine ⟨?_, ?_, ?_, ?_⟩
  · rw [captureProfile_success_files hsucc]
    rfl
  · intro hd
    subst hd
    rw [captureProfile_success_eq hc h1 h2' h3]
    have h0 : scrollEvents 0 h env.scrollHeight vh = [] := by
      unfold scrollEvents
      simp
    rw [show ((Event.newPage :: Event.installDialogHandler :: se ++ Event.goto url ::
        popupEvents env ++ initialDelayEvents d0 ++ scrollEvents 0 h env.scrollHeight vh
        ++ [Event.exportPdf (deviceSpecificFilename out dt len)
              (if vw = 0 then w else vw) (if vh = 0 then h else vh),
            Event.closePage], (none : Option GenError)).1)
      = Event.newPage :: Event.installDialogHandler :: se ++ Event.goto url ::
        popupEvents env ++ initialDelayEvents d0 ++ scrollEvents 0 h env.scrollHeight vh
        ++ [Event.exportPdf (deviceSpecificFilename out dt len)
              (if vw = 0 then w else vw) (if vh = 0 then h else vh),
            Event.closePage] from rfl]
    rw [hswT, h0]
    rfl
  · intro hd hn
    rw [captureProfile_success_eq hc h1 h2' h3]
    have hsc : scrollEvents d h env.scrollHeight vh
        = scrollWaitEventsFrom (if vh = 0 then h else vh) d 1
            (ceilDiv env.scrollHeight (if vh = 0 then h else vh) - 1)
          ++ [Event.scrollTo 0] := by
      unfold scrollEvents
      rw [if_pos hd, if_pos hn]
    refine ⟨Event.newPage :: Event.installDialogHandler :: se ++ Event.goto url ::
        (popupEvents env ++ initialDelayEvents d0), ?_, ?_⟩
    · rw [show ((Event.newPage :: Event.installDialogHandler :: se ++ Event.goto url ::
          popupEvents env ++ initialDelayEvents d0 ++ scrollEvents d h env.scrollHeight vh
          ++ [Event.exportPdf (deviceSpecificFilename out dt len)
                (if vw = 0 then w else vw) (if vh = 0 then h else vh),
              Event.closePage], (none : Option GenError)).1)
        = Event.newPage :: Event.installDialogHandler :: se ++ Event.goto url ::
          popupEvents env ++ initialDelayEvents d0 ++ scrollEvents d h env.scrollHeight vh
          ++ [Event.exportPdf (deviceSpecificFilename out dt len)
                (if vw = 0 then w else vw) (if vh = 0 then h else vh),
              Event.closePage] from rfl]
      rw [hsc]
      simp [List.append_assoc, List.cons_append]
    · simp [scrollAndWaitEvents, List.filter_append, List.filter_cons,
        filter_sw_se hc, filter_sw_popup, filter_sw_init, isScrollOrWaitEvent]
  · intro hd hn
    rw [captureProfile_success_eq hc h1 h2' h3]
    have hsc : scrollEvents d h env.scrollHeight vh = [] := by
      unfold scrollEvents
      rw [if_pos hd, if_neg (by omega)]
    rw [show ((Event.newPage :: Event.installDialogHandler :: se ++ Event.goto url ::
        popupEvents env ++ initialDelayEvents d0 ++ scrollEvents d h env.scrollHeight vh
        ++ [Event.exportPdf (deviceSpecificFilename out dt len)
              (if vw = 0 then w else vw) (if vh = 0 then h else vh),
            Event.closePage], (none : Option GenError)).1)
      = Event.newPage :: Event.installDialogHandler :: se ++ Event.goto url ::
        popupEvents env ++ initialDelayEvents d0 ++ scrollEvents d h env.scrollHeight vh
        ++ [Event.exportPdf (deviceSpecificFilename out dt len)
              (if vw = 0 then w else vw) (if vh = 0 then h else vh),
            Event.closePage] from rfl]
    rw [hswT, hsc]
    rfl

/-- Witness for C2 (amended): a desktop capture with pageDelay 1 and content
height 2500 (ceil(2500/1080) = 3) performs cycles at offsets 1080 and 2160,
scrolls back to the top, then exports once. -/
theorem generatePDF_scroll_pagination_amended_witness :
    ∃ pre, (captureProfile ("https://example.com".data) ("landing-page.pdf".data)
        0 1 794 1123 1 false ("desktop".data) ⟨2500, false, false, false, false⟩).1
      = pre ++ scrollWaitEventsFrom 1080 1 1 (ceilDiv 2500 1080 - 1)
        ++ [Event.scrollTo 0,
            Event.exportPdf (deviceSpecificFilename ("landing-page.pdf".data)
              ("desktop".data) 1) 1920 1080,
            Event.closePage]
      ∧ scrollAndWaitEvents pre = [] :=
  (generatePDF_scroll_pagination_amended ("https://example.com".data)
    ("landing-page.pdf".data) 0 1 794 1123 1 false ("desktop".data)
    ⟨2500, false, false, false, false⟩ [Event.setViewport 1920 1080] 1920 1080
    rfl rfl rfl rfl).2.2.1 (by decide) (by decide)

/-- On an all-successful run of the per-profile loop: the written PDF files
are exactly one per profile in order, the page discipline holds, the browser
is never launched inside the loop, and `browser.close()` runs exactly once,
as the final event. -/
theorem runProfiles_success {url out : List Char} {d0 d w h len : Nat}
    {custom : Bool} {envs : Nat → ProfileEnv} :
    ∀ (dts : List (List Char)) (idx : Nat),
    (runProfiles url out d0 d w h len custom envs idx dts).2 = none →
    pdfFilesWritten (runProfiles url out d0 d w h len custom envs idx dts).1
        = dts.map (fun dt => deviceSpecificFilename out dt len)
    ∧ pageDiscipline 0 (runProfiles url out d0 d w h len custom envs idx dts).1 = true
    ∧ Event.launchBrowser ∉ (runProfiles url out d0 d w h len custom envs idx dts).1
    ∧ (runProfiles url out d0 d w h len custom envs idx dts).1.count Event.closeBrowser = 1
    ∧ (runProfiles url out d0 d w h len custom envs idx dts).1.getLast?
        = some Event.closeBrowser := by
  intro dts
  induction dts with
  | nil =>
      intro idx _
      refine ⟨rfl, rfl, by simp [runProfiles], by simp [runProfiles], rfl⟩
  | cons dt rest ih =>
      intro idx hsucc
      by_cases his : (captureProfile url out d0 d w h len custom dt (envs idx)).2.isSome
      · have hres : runProfiles url out d0 d w h len custom envs idx (dt :: rest)
            = ((captureProfile url out d0 d w h len custom dt (envs idx)).1,
               (captureProfile url out d0 d w h len custom dt (envs idx)).2) := by
          simp [runProfiles, his]
        rw [hres] at hsucc
        rw [hsucc] at his
        simp at his
      · have hcap : (captureProfile url out d0 d w h len custom dt (envs idx)).2 = none :=
          Option.not_isSome_iff_eq_none.mp his
        have hres : runProfiles url out d0 d w h len custom envs idx (dt :: rest)
            = ((captureProfile url out d0 d w h len custom dt (envs idx)).1
                ++ (runProfiles url out d0 d w h len custom envs (idx + 1) rest).1,
               (runProfiles url out d0 d w h len custom envs (idx + 1) rest).2) := by
          simp [runProfiles, his]
        rw [hres] at hsucc ⊢
        obtain ⟨ihf, ihd, ihl, ihc, ihg⟩ := ih (idx + 1) hsucc
        have hnnil : (runProfiles url out d0 d w h len custom envs (idx + 1) rest).1 ≠ [] := by
          intro hnil
          rw [hnil] at ihg
          simp at ihg
        refine ⟨?_, ?_, ?_, ?_, ?_⟩
        · rw [pdfFilesWritten, List.filterMap_append]
          rw [← pdfFilesWritten, ← pdfFilesWritten, captureProfile_success_files hcap, ihf]
          simp
        · rw [captureProfile_success_discipline hcap]
          exact ihd
        · intro hmem
          rcases List.mem_append.mp hmem with hm | hm
          · exact captureProfile_no_launchBrowser hm
          · exact ihl hm
        · rw [List.count_append,
            List.count_eq_zero.mpr captureProfile_no_closeBrowser, ihc]
        · rw [List.getLast?_append_of_ne_nil _ hnnil]
          exact ihg

/-- If profiles before index `i` succeed and the profile at `i` errors, the
loop stops at `i`: the error propagates, `browser.close()` is never reached,
and only the first `i + 1` page contexts were ever opened. -/
theorem runProfiles_error {url out : List Char} {d0 d w h len : Nat}
    {custom : Bool} {envs : Nat → ProfileEnv} :
    ∀ (dts : List (List Char)) (idx i : Nat) (hi : i < dts.length) (e : GenError),
    (∀ j : Fin dts.length, (j : Nat) < i →
        (captureProfile url out d0 d w h len custom (dts.get j) (envs (idx + j))).2 = none) →
    (captureProfile url out d0 d w h len custom (dts.get ⟨i, hi⟩) (envs (idx + i))).2 = some e →
    (runProfiles url out d0 d w h len custom envs idx dts).2 = some e
    ∧ Event.closeBrowser ∉ (runProfiles url out d0 d w h len custom envs idx dts).1
    ∧ (runProfiles url out d0 d w h len custom envs idx dts).1.count Event.newPage = i + 1 := by
  intro dts
  induction dts with
  | nil =>
      intro idx i hi e _ _
      exact absurd hi (Nat.not_lt_zero i)
  | cons dt rest ih =>
      intro idx i hi e hok hfail
      cases i with
      | zero =>
          have hfail0 : (captureProfile url out d0 d w h len custom dt (envs idx)).2
              = some e := by
            simpa using hfail
          have his : (captureProfile url out d0 d w h len custom dt (envs idx)).2.isSome = true := by
            rw [hfail0]; rfl
          have hres : runProfiles url out d0 d w h len custom envs idx (dt :: rest)
              = ((captureProfile url out d0 d w h len custom dt (envs idx)).1,
                 (captureProfile url out d0 d w h len custom dt (envs idx)).2) := by
            simp [runProfiles, his]
          rw [hres]
          exact ⟨hfail0, captureProfile_no_closeBrowser, captureProfile_count_newPage⟩
      | succ i2 =>
          have hok0 : (captureProfile url out d0 d w h len custom dt (envs idx)).2 = none := by
            have := hok ⟨0, by simp⟩ (by simp)
            simpa using this
          have his : (captureProfile url out d0 d w h len custom dt (envs idx)).2.isSome = false := by
            rw [hok0]; rfl
          have hres : runProfiles url out d0 d w h len custom envs idx (dt :: rest)
              = ((captureProfile url out d0 d w h len custom dt (envs idx)).1
                  ++ (runProfiles url out d0 d w h len custom envs (idx + 1) rest).1,
                 (runProfiles url out d0 d w h len custom envs (idx + 1) rest).2) := by
            simp [runProfiles, his]
          have hi2 : i2 < rest.length := by
            simpa using Nat.lt_of_succ_lt_succ hi
          have hok2 : ∀ j : Fin rest.length, (j : Nat) < i2 →
              (captureProfile url out d0 d w h len custom (rest.get j)
                (envs (idx + 1 + j))).2 = none := by
            intro j hj
            have hlt : (j : Nat) + 1 < (dt :: rest).length := by
              simp
            have := hok ⟨(j : Nat) + 1, hlt⟩ (by simpa using Nat.succ_lt_succ hj)
            have harith : idx + ((j : Nat) + 1) = idx + 1 + (j : Nat) := by omega
            rw [harith] at this
            simpa using this
          have hfail2 : (captureProfile url out d0 d w h len custom
              (rest.get ⟨i2, hi2⟩) (envs (idx + 1 + i2))).2 = some e := by
            have harith : idx + (i2 + 1) = idx + 1 + i2 := by omega
            rw [harith] at hfail
            simpa using hfail
          obtain ⟨ihe, ihc, ihn⟩ := ih (idx + 1) i2 hi2 e hok2 hfail2
          rw [hres]
          refine ⟨ihe, ?_, ?_⟩
          · intro hmem
            rcases List.mem_append.mp hmem with hm | hm
            · exact captureProfile_no_closeBrowser hm
            · exact ihc hm
          · rw [List.count_append, captureProfile_count_newPage, ihn]
            omega

theorem generatePDF_healthy_eq {urlParses : Bool} {net : NetBehavior}
    {url out : List Char} {d0 d w h : Nat} {dts : List (List Char)} {custom : Bool}
    {envs : Nat → ProfileEnv} (hh : checkSiteHealth urlParses net = true) :
    generatePDF urlParses net url out d0 d w h dts custom envs
      = (Event.launchBrowser ::
          (runProfiles url out d0 d w h dts.length custom envs 0 dts).1,
         (runProfiles url out d0 d w h dts.length custom envs 0 dts).2) := by
  simp [generatePDF, hh]

/-! ## C3 -/

/-- C3: on a successful run whose output base name B is a plain base name
(nonempty, no directory separator, no ".pdf" suffix): a single requested
profile emits exactly the file B ++ ".pdf"; two or more requested profiles
emit exactly one file B ++ "-" ++ profile ++ ".pdf" per requested profile,
and the bare name B ++ ".pdf" is never used. -/
theorem generatePDF_output_filenames (urlParses : Bool) (net : NetBehavior)
    (url B : List Char) (d0 d w h : Nat) (dts : List (List Char)) (custom : Bool)
    (envs : Nat → ProfileEnv)
    (hB : B ≠ []) (hslash : ∀ c ∈ B, c ≠ '/')
    (hsuffix : (".pdf".data).isSuffixOf B = false)
    (hok : (generatePDF urlParses net url (normalizeOutputFilename B) d0 d w h dts
        custom envs).2 = none) :
    (dts.length = 1 →
      pdfFilesWritten (generatePDF urlParses net url (normalizeOutputFilename B)
          d0 d w h dts custom envs).1
        = [B ++ ".pdf".data])
    ∧ (2 ≤ dts.length →
      pdfFilesWritten (generatePDF urlParses net url (normalizeOutputFilename B)
          d0 d w h dts custom envs).1
          = dts.map (fun dt => B ++ '-' :: dt ++ ".pdf".data)
      ∧ (B ++ ".pdf".data) ∉ pdfFilesWritten (generatePDF urlParses net url
          (normalizeOutputFilename B) d0 d w h dts custom envs).1) := by
  by_cases hh : checkSiteHealth urlParses net = true
  · rw [generatePDF_healthy_eq hh] at hok ⊢
    have hok2 : (runProfiles url (normalizeOutputFilename B) d0 d w h dts.length
        custom envs 0 dts).2 = none := hok
    obtain ⟨hfiles, -, -, -, -⟩ := runProfiles_success dts 0 hok2
    have hlw : ∀ l : List Event,
        pdfFilesWritten (Event.launchBrowser :: l) = pdfFilesWritten l := by
      intro l
      simp [pdfFilesWritten, List.filterMap_cons, pdfFileOf]
    have hbase : basename (normalizeOutputFilename B) (".pdf".data) = B := by
      rw [normalizeOutputFilename_of_no_suffix hB hsuffix]
      exact basename_append_ext hB hslash
    constructor
    · intro hlen1
      obtain ⟨dt0, rfl⟩ := List.length_eq_one.mp hlen1
      show pdfFilesWritten (Event.launchBrowser :: _) = _
      rw [hlw, hfiles]
      simp [deviceSpecificFilename, hbase]
    · intro hlen2
      have hlt : 1 < dts.length := by omega
      constructor
      · show pdfFilesWritten (Event.launchBrowser :: _) = _
        rw [hlw, hfiles]
        apply List.map_congr_left
        intro dt _
        simp [deviceSpecificFilename, hbase, if_pos hlt]
      · show (B ++ ".pdf".data) ∉ pdfFilesWritten (Event.launchBrowser :: _)
        rw [hlw, hfiles]
        intro hmem
        obtain ⟨dt, -, heq⟩ := List.mem_map.mp hmem
        have hlens := congrArg List.length heq
        simp [deviceSpecificFilename, hbase, if_pos hlt] at hlens
  · have hh2 : checkSiteHealth urlParses net = false := by
      revert hh
      cases checkSiteHealth urlParses net <;> simp
    rw [generatePDF, hh2] at hok
    simp at hok

/-- Witness for C3: a healthy two-profile run with base name "report" emits
"report-desktop.pdf" and "report-tablet.pdf" and never "report.pdf". -/
theorem generatePDF_output_filenames_witness :
    pdfFilesWritten (generatePDF true (NetBehavior.response (some 200) 0)
        ("https://example.com".data) (normalizeOutputFilename ("report".data))
        0 0 794 1123 [("desktop".data), ("tablet".data)] false
        (fun _ => ⟨1000, false, false, false, false⟩)).1
      = [("desktop".data), ("tablet".data)].map
          (fun dt => ("report".data) ++ '-' :: dt ++ ".pdf".data)
    ∧ (("report".data) ++ ".pdf".data) ∉
        pdfFilesWritten (generatePDF true (NetBehavior.response (some 200) 0)
          ("https://example.com".data) (normalizeOutputFilename ("report".data))
          0 0 794 1123 [("desktop".data), ("tablet".data)] false
          (fun _ => ⟨1000, false, false, false, false⟩)).1 :=
  (generatePDF_output_filenames true (NetBehavior.response (some 200) 0)
    ("https://example.com".data) ("report".data) 0 0 794 1123
    [("desktop".data), ("tablet".data)] false
    (fun _ => ⟨1000, false, false, false, false⟩)
    (by decide) (by decide) (by decide) (by decide)).2 (by decide)

/-! ## C7 -/

/-- C7: in a multi-profile run, if the profiles before index i succeed and
profile i's processing raises an error (navigation, evaluation, or PDF
export), the error is not caught in the loop: it propagates as the result of
`generatePDF`, all remaining profiles are skipped (exactly i + 1 page
contexts were ever opened), and the browser close call is never invoked on
that path. -/
theorem generatePDF_error_aborts_loop (urlParses : Bool) (net : NetBehavior)
    (url out : List Char) (d0 d w h : Nat) (dts : List (List Char)) (custom : Bool)
    (envs : Nat → ProfileEnv) (i : Nat) (e : GenError)
    (hhealth : checkSiteHealth urlParses net = true)
    (hi : i < dts.length)
    (hok : ∀ j : Fin dts.length, (j : Nat) < i →
        (captureProfile url out d0 d w h dts.length custom (dts.get j)
          (envs (j : Nat))).2 = none)
    (hfail : (captureProfile url out d0 d w h dts.length custom (dts.get ⟨i, hi⟩)
        (envs i)).2 = some e) :
    (generatePDF urlParses net url out d0 d w h dts custom envs).2 = some e
    ∧ Event.closeBrowser ∉ (generatePDF urlParses net url out d0 d w h dts custom envs).1
    ∧ (generatePDF urlParses net url out d0 d w h dts custom envs).1.count Event.newPage
        = i + 1 := by
  have hok2 : ∀ j : Fin dts.length, (j : Nat) < i →
      (captureProfile url out d0 d w h dts.length custom (dts.get j)
        (envs (0 + (j : Nat)))).2 = none := by
    intro j hj
    rw [Nat.zero_add]
    exact hok j hj
  have hfail2 : (captureProfile url out d0 d w h dts.length custom (dts.get ⟨i, hi⟩)
      (envs (0 + i))).2 = some e := by
    rw [Nat.zero_add]
    exact hfail
  obtain ⟨he, hc, hn⟩ := runProfiles_error dts 0 i hi e hok2 hfail2
  rw [generatePDF_healthy_eq hhealth]
  refine ⟨he, ?_, ?_⟩
  · intro hmem
    rcases List.mem_cons.mp hmem with h0 | h1
    · exact Event.noConfusion h0
    · exact hc h1
  · simp [List.count_cons, hn]

/-- Witness for C7: with two profiles where the second one's PDF export
fails, the error propagates, only two page contexts open, and the browser is
never closed. -/
theorem generatePDF_error_aborts_loop_witness :
    (generatePDF true (NetBehavior.response (some 200) 0) ("https://example.com".data)
        ("report.pdf".data) 0 0 794 1123 [("desktop".data), ("tablet".data)] false
        (fun n => if n == 0 then ⟨1000, false, false, false, false⟩
                  else ⟨1000, false, false, false, true⟩)).2 = some GenError.pdfError
    ∧ Event.closeBrowser ∉ (generatePDF true (NetBehavior.response (some 200) 0)
        ("https://example.com".data) ("report.pdf".data) 0 0 794 1123
        [("desktop".data), ("tablet".data)] false
        (fun n => if n == 0 then ⟨1000, false, false, false, false⟩
                  else ⟨1000, false, false, false, true⟩)).1
    ∧ (generatePDF true (NetBehavior.response (some 200) 0) ("https://example.com".data)
        ("report.pdf".data) 0 0 794 1123 [("desktop".data), ("tablet".data)] false
        (fun n => if n == 0 then ⟨1000, false, false, false, false⟩
                  else ⟨1000, false, false, false, true⟩)).1.count Event.newPage = 2 :=
  generatePDF_error_aborts_loop true (NetBehavior.response (some 200) 0)
    ("https://example.com".data) ("report.pdf".data) 0 0 794 1123
    [("desktop".data), ("tablet".data)] false
    (fun n => if n == 0 then ⟨1000, false, false, false, false⟩
              else ⟨1000, false, false, false, true⟩)
    1 GenError.pdfError (by decide) (by decide) (by decide) (by decide)

/-! ## C9 -/

/-- C9: on the success path of a healthy run, the trace is page-disciplined
(at most one page context open at any time: each `newPage` occurs with no
context open, each `closePage` with exactly one, and none remains open at
the end), the browser launch is the very first event and happens exactly
once, and the browser close is the very last event and happens exactly
once. -/
theorem generatePDF_page_lifecycle (urlParses : Bool) (net : NetBehavior)
    (url out : List Char) (d0 d w h : Nat) (dts : List (List Char)) (custom : Bool)
    (envs : Nat → ProfileEnv)
    (hhealth : checkSiteHealth urlParses net = true)
    (hsucc : (generatePDF urlParses net url out d0 d w h dts custom envs).2 = none) :
    pageDiscipline 0 (generatePDF urlParses net url out d0 d w h dts custom envs).1 = true
    ∧ (generatePDF urlParses net url out d0 d w h dts custom envs).1.head?
        = some Event.launchBrowser
    ∧ (generatePDF urlParses net url out d0 d w h dts custom envs).1.count
        Event.launchBrowser = 1
    ∧ (generatePDF urlParses net url out d0 d w h dts custom envs).1.getLast?
        = some Event.closeBrowser
    ∧ (generatePDF urlParses net url out d0 d w h dts custom envs).1.count
        Event.closeBrowser = 1 := by
  rw [generatePDF_healthy_eq hhealth] at hsucc ⊢
  have hok : (runProfiles url out d0 d w h dts.length custom envs 0 dts).2 = none := hsucc
  obtain ⟨-, hd, hl, hc, hg⟩ := runProfiles_success dts 0 hok
  have hnnil : (runProfiles url out d0 d w h dts.length custom envs 0 dts).1 ≠ [] := by
    intro hnil
    rw [hnil] at hg
    simp at hg
  have hstep : ∀ l, pageDiscipline 0 (Event.launchBrowser :: l) = pageDiscipline 0 l := by
    intro l
    simp [pageDiscipline]
  refine ⟨?_, rfl, ?_, ?_, ?_⟩
  · show pageDiscipline 0 (Event.launchBrowser :: _) = true
    rw [hstep]
    exact hd
  · show (Event.launchBrowser :: _).count Event.launchBrowser = 1
    simp [List.count_cons, List.count_eq_zero.mpr hl]
  · show (Event.launchBrowser :: _).getLast? = some Event.closeBrowser
    rw [show ∀ l : List Event, Event.launchBrowser :: l = [Event.launchBrowser] ++ l
        from fun l => rfl]
    rw [List.getLast?_append_of_ne_nil _ hnnil]
    exact hg
  · show (Event.launchBrowser :: _).count Event.closeBrowser = 1
    simp [List.count_cons, hc]

/-- Witness for C9: a healthy two-profile run is page-disciplined, launches
first, and closes the browser last. -/
theorem generatePDF_page_lifecycle_witness :
    pageDiscipline 0 (generatePDF true (NetBehavior.response (some 200) 0)
        ("https://example.com".data) ("report.pdf".data) 0 0 794 1123
        [("desktop".data), ("tablet".data)] false
        (fun _ => ⟨1000, false, false, false, false⟩)).1 = true
    ∧ (generatePDF true (NetBehavior.response (some 200) 0)
        ("https://example.com".data) ("report.pdf".data) 0 0 794 1123
        [("desktop".data), ("tablet".data)] false
        (fun _ => ⟨1000, false, false, false, false⟩)).1.head?
        = some Event.launchBrowser
    ∧ (generatePDF true (NetBehavior.response (some 200) 0)
        ("https://example.com".data) ("report.pdf".data) 0 0 794 1123
        [("desktop".data), ("tablet".data)] false
        (fun _ => ⟨1000, false, false, false, false⟩)).1.count Event.launchBrowser = 1
    ∧ (generatePDF true (NetBehavior.response (some 200) 0)
        ("https://example.com".data) ("report.pdf".data) 0 0 794 1123
        [("desktop".data), ("tablet".data)] false
        (fun _ => ⟨1000, false, false, false, false⟩)).1.getLast?
        = some Event.closeBrowser
    ∧ (generatePDF true (NetBehavior.response (some 200) 0)
        ("https://example.com".data) ("report.pdf".data) 0 0 794 1123
        [("desktop".data), ("tablet".data)] false
        (fun _ => ⟨1000, false, false, false, false⟩)).1.count Event.closeBrowser = 1 :=
  generatePDF_page_lifecycle true (NetBehavior.response (some 200) 0)
    ("https://example.com".data) ("report.pdf".data) 0 0 794 1123
    [("desktop".data), ("tablet".data)] false
    (fun _ => ⟨1000, false, false, false, false⟩) (by decide) (by decide)
